import Mathlib

/-!
Verification of the slow-proxy HTTP test server.

The development shallowly embeds the two variants of the `slow` handler
(the ticking variant of `main.go` and the sleep-only variant), the `fail`
handler, and the shutdown tail of `main`, together with a faithful model
of Go's `time.ParseDuration`.

Times are nanosecond counts (`Nat` for points on the request timeline,
`Int` for Go `time.Duration` values, which are signed 64-bit nanosecond
counts; the parser performs the same explicit `2 ^ 63` overflow checks as
the Go source).  The select loop of the ticking handler is embedded as a
fueled loop; the fuel supplied by the handler provably exceeds the number
of loop iterations, so exhaustion is unreachable.  Go selects among
simultaneously ready channels pseudo-randomly; simultaneity of the ticker
with a terminating event is resolved by an explicit `tieTimer` input, and
ties among the three terminating events themselves (which the claims never
distinguish) follow the textual order of the select cases.
-/

/-- Log levels of the zap logger as used by the program. -/
inductive LogLevel
  | info
  | warn
  | error
deriving DecidableEq, Repr

/-- The event that makes the ticking handler return: one of the four
select cases (request-context cancellation, server-context cancellation,
the timer firing, or a failed tick write). -/
inductive ExitCause
  | clientCancel
  | shutdown
  | timerFired
  | writeFailed
deriving DecidableEq, Repr

/-- Decimal digit test, as the byte-range checks of the Go source. -/
def isDigitCh (c : Char) : Bool :=
  decide ('0' ≤ c ∧ c ≤ '9')

/-- Model of `leadingInt` from Go package `time`: consume leading decimal
digits of `s`, accumulating onto `x`; `none` is the overflow error, raised
exactly by the two checks of the source (`x > 1<<63/10` before the step and
`x > 1<<63` after it). -/
def leadingInt : List Char → Nat → Option (Nat × List Char)
  | [], x => some (x, [])
  | c :: rest, x =>
    if c < '0' ∨ '9' < c then some (x, c :: rest)
    else if 2 ^ 63 / 10 < x then none
    else
      let y := x * 10 + (c.toNat - 48)
      if 2 ^ 63 < y then none
      else leadingInt rest y

/-- Model of `leadingFraction` from Go package `time`: consume leading
decimal digits after the decimal point, returning the digits value, the
scale (a power of ten counting the digits kept), and the rest.  On
overflow the remaining digits are consumed without effect, as in the
source. -/
def leadingFraction : List Char → Nat → Nat → Bool → Nat × Nat × List Char
  | [], x, scale, _ => (x, scale, [])
  | c :: rest, x, scale, overflow =>
    if c < '0' ∨ '9' < c then (x, scale, c :: rest)
    else if overflow then leadingFraction rest x scale true
    else if (2 ^ 63 - 1) / 10 < x then leadingFraction rest x scale true
    else
      let y := x * 10 + (c.toNat - 48)
      if 2 ^ 63 < y then leadingFraction rest x scale true
      else leadingFraction rest y (scale * 10) overflow

/-- Consume the unit of one duration segment: the characters up to the
next digit or decimal point (the loop over `s[i]` in `ParseDuration`). -/
def takeUnit : List Char → List Char × List Char
  | [] => ([], [])
  | c :: rest =>
    if c = '.' ∨ isDigitCh c then ([], c :: rest)
    else
      let p := takeUnit rest
      (c :: p.1, p.2)

/-- The `unitMap` of Go package `time`: nanoseconds per unit. -/
def unitMap (u : String) : Option Nat :=
  if u = "ns" then some 1
  else if u = "us" then some 1000
  else if u = "µs" then some 1000
  else if u = "μs" then some 1000
  else if u = "ms" then some 1000000
  else if u = "s" then some 1000000000
  else if u = "m" then some 60000000000
  else if u = "h" then some 3600000000000
  else none

/-- One iteration of the `for s != ""` loop of `ParseDuration`: parse one
`[0-9]*(\.[0-9]*)?unit` segment, returning its value in nanoseconds and
the rest of the input.  The fractional contribution, which the Go source
computes as `uint64(float64(f) * (float64(unit) / scale))`, is modelled by
the exact truncating rational `f * unit / scale`; the two agree on every
input considered in this development (no claim concerns fractional
segments near the overflow boundary). -/
def parseOne (s : List Char) : Option (Nat × List Char) :=
  match s with
  | [] => none
  | c :: _ =>
    if ¬ (c = '.' ∨ isDigitCh c) then none
    else
      match leadingInt s 0 with
      | none => none
      | some (v, s1) =>
        let pre : Bool := decide (s1.length ≠ s.length)
        let fr : Nat × Nat × List Char × Bool :=
          match s1 with
          | '.' :: t =>
            let q := leadingFraction t 0 1 false
            (q.1, q.2.1, q.2.2, decide (q.2.2.length ≠ t.length))
          | _ => (0, 1, s1, false)
        let f := fr.1
        let scale := fr.2.1
        let s2 := fr.2.2.1
        let post := fr.2.2.2
        if pre = false ∧ post = false then none
        else
          let up := takeUnit s2
          if up.1 = [] then none
          else
            match unitMap (String.mk up.1) with
            | none => none
            | some unit =>
              if 2 ^ 63 / unit < v then none
              else
                let v1 := v * unit
                let v2 := if 0 < f then v1 + f * unit / scale else v1
                if 0 < f ∧ 2 ^ 63 < v2 then none
                else some (v2, up.2)

/-- The segment loop of `ParseDuration`, accumulating nanoseconds in `d`
with the `d > 1<<63` overflow check of the source.  Fuel bounds the number
of segments; each successful `parseOne` consumes at least the unit
character, so the initial fuel `s.length + 1` is never exhausted. -/
def parseListF : Nat → List Char → Nat → Option Nat
  | _, [], d => some d
  | 0, _ :: _, _ => none
  | fuel + 1, s, d =>
    match parseOne s with
    | none => none
    | some (v, rest) =>
      if 2 ^ 63 < d + v then none
      else parseListF fuel rest (d + v)

/-- Model of Go `time.ParseDuration`: optional sign, the special case of
a bare `0`, then one or more number+unit segments; `none` is the parse
error.  The result is a signed nanosecond count. -/
def parseDuration (str : String) : Option Int :=
  let s0 := str.data
  let sgn : Bool × List Char :=
    match s0 with
    | '-' :: rest => (true, rest)
    | '+' :: rest => (false, rest)
    | _ => (false, s0)
  let neg := sgn.1
  let s1 := sgn.2
  if s1 = ['0'] then some 0
  else if s1 = [] then none
  else
    match parseListF (s1.length + 1) s1 0 with
    | none => none
    | some d =>
      if neg then some (-(d : Int))
      else if 2 ^ 63 - 1 < d then none
      else some (d : Int)

/-- Nanoseconds in one second (`time.Second`), the ticker interval. -/
def second : Nat := 1000000000

/-- Earliest of a known event time and an optional one. -/
def withOpt (t : Nat) : Option Nat → Nat
  | none => t
  | some c => min t c

/-- Whether an optional event occurs exactly at time `t`. -/
def atTime (o : Option Nat) (t : Nat) : Bool :=
  match o with
  | none => false
  | some c => c = t

/-- Which terminating select case fires at the earliest terminating time:
among simultaneously ready terminating channels the model follows the
textual order of the select cases (request context, server context,
timer); no claim distinguishes simultaneous terminating events. -/
def firstCause (timerTime : Nat) (cancelAt shutdownAt : Option Nat) : ExitCause :=
  let tstar := withOpt (withOpt timerTime cancelAt) shutdownAt
  if atTime cancelAt tstar then .clientCancel
  else if atTime shutdownAt tstar then .shutdown
  else .timerFired

/-- The line written for one tick: `fmt.Sprintf("tick: %s\n", tick)`. -/
def tickLine (t : String) : String :=
  "tick: " ++ t ++ "\n"

/-- The newline character terminating each tick line. -/
def newline : Char := Char.ofNat 10

/-- Observable outcome of the select loop: response-body lines in order,
number of `Flush` calls, log events in order, the time at which the
handler returns, and the select case that made it return. -/
structure LoopOut where
  body : List String
  flushes : Nat
  logs : List (LogLevel × String)
  exitTime : Nat
  cause : ExitCause
deriving DecidableEq, Repr

/-- The select loop of the ticking `slow` handler.  `ts` renders the
wall-clock value received from the ticker channel at a given nanosecond
time; `isFl` is whether the response writer implements `http.Flusher`;
`tstar` is the earliest terminating event (timer fire at
`max pause 0` --- a timer with a nonpositive duration fires immediately ---
client cancellation, or server shutdown) and `cause` its select case;
`failAt = some j` makes the write of tick `j` fail; `tieTimer` resolves a
tick exactly at `tstar`: `true` selects the terminating channel, `false`
the ticker.  Fuel exceeds the iteration count whenever
`fuel + k ≥ tstar / second + 1`, which the handler ensures; the
exhaustion arm returns the terminating exit and is unreachable. -/
def loopRun (ts : Nat → String) (isFl : Bool) (tieTimer : Bool) (failAt : Option Nat)
    (cause : ExitCause) (tstar : Nat) : Nat → Nat → LoopOut
  | 0, _ => { body := [], flushes := 0, logs := [], exitTime := tstar, cause := cause }
  | fuel + 1, k =>
    let nextTick := (k + 1) * second
    if nextTick < tstar ∨ (nextTick = tstar ∧ tieTimer = false) then
      if failAt = some (k + 1) then
        { body := [], flushes := 0,
          logs := [(.info, "tick"), (.error, "failed to write tick")],
          exitTime := nextTick, cause := .writeFailed }
      else
        let rest := loopRun ts isFl tieTimer failAt cause tstar fuel (k + 1)
        { body := tickLine (ts nextTick) :: rest.body,
          flushes := (if isFl then 1 else 0) + rest.flushes,
          logs := (.info, "tick") ::
            ((if isFl then [(.info, "flush")] else []) ++ rest.logs),
          exitTime := rest.exitTime, cause := rest.cause }
    else
      { body := [], flushes := 0, logs := [], exitTime := tstar, cause := cause }

/-- Number of ticks the loop writes before the terminating event at
`tstar` when no write fails: the ticks strictly before `tstar`, plus the
tick exactly at `tstar` when there is one and the select resolves the tie
in favour of the ticker. -/
def tickCount (tstar : Nat) (tieTimer : Bool) : Nat :=
  if second ∣ tstar ∧ tieTimer = true then tstar / second - 1
  else tstar / second

/-- Observable outcome of one invocation of the ticking `slow` handler. -/
structure SlowResult where
  badRequest : Bool
  reachedWaitLoop : Bool
  pauseNs : Int
  body : List String
  flushes : Nat
  logs : List (LogLevel × String)
  exitTime : Nat
  cause : ExitCause
deriving DecidableEq, Repr

/-- The wait phase of the ticking handler: build the timer from the parsed
pause (`time.NewTimer` fires immediately for nonpositive durations, hence
`Int.toNat`), race it against the optional cancellations, and run the
select loop with fuel `tstar / second + 1`. -/
def slowWait (ts : Nat → String) (isFl : Bool) (tieTimer : Bool) (failAt : Option Nat)
    (cancelAt shutdownAt : Option Nat) (pause : Int) : LoopOut :=
  let timerTime := pause.toNat
  let tstar := withOpt (withOpt timerTime cancelAt) shutdownAt
  loopRun ts isFl tieTimer failAt (firstCause timerTime cancelAt shutdownAt) tstar
    (tstar / second + 1) 0

/-- Body of the ticking `slow` handler after the default-duration
substitution, keyed on the result of `ParseDuration`.  On a parse error
the handler calls `WriteHeader(StatusBadRequest)` and logs the error but
does NOT return: control falls through to the wait loop with `pause`
still holding the Go zero value, exactly as in the source. -/
def slowCore (ts : Nat → String) (isFl : Bool) (parsed : Option Int)
    (cancelAt shutdownAt failAt : Option Nat) (tieTimer : Bool) : SlowResult :=
  match parsed with
  | none =>
    let out := slowWait ts isFl tieTimer failAt cancelAt shutdownAt 0
    { badRequest := true, reachedWaitLoop := true, pauseNs := 0,
      body := out.body, flushes := out.flushes,
      logs := [(.error, "failed to parse duration"), (.info, "starting request")] ++
        out.logs ++ [(.info, "finishing request")],
      exitTime := out.exitTime, cause := out.cause }
  | some pause =>
    let out := slowWait ts isFl tieTimer failAt cancelAt shutdownAt pause
    { badRequest := false, reachedWaitLoop := true, pauseNs := pause,
      body := out.body, flushes := out.flushes,
      logs := [(.info, "starting request")] ++ out.logs ++ [(.info, "finishing request")],
      exitTime := out.exitTime, cause := out.cause }

/-- The ticking `slow` handler of `main.go`: an absent or empty `duration`
path variable is replaced by `"10s"` (with an informational log), then the
parse-and-wait body runs. -/
def slowTicking (ts : Nat → String) (isFl : Bool) (durationVar : String)
    (cancelAt shutdownAt failAt : Option Nat) (tieTimer : Bool) : SlowResult :=
  let dur := if durationVar = "" then "10s" else durationVar
  let pre : List (LogLevel × String) :=
    if durationVar = "" then [(.info, "using default duration")] else []
  let r := slowCore ts isFl (parseDuration dur) cancelAt shutdownAt failAt tieTimer
  { r with logs := pre ++ r.logs }

/-- Observable outcome of the sleep-only `slow` handler variant. -/
structure SleepResult where
  badRequest : Bool
  pauseNs : Int
  sleptNs : Nat
  logs : List (LogLevel × String)
deriving DecidableEq, Repr

/-- Body of the sleep-only `slow` handler variant: the same parse step
(same fallthrough after the 400 header), then `time.Sleep(pause)`, which
returns immediately for nonpositive durations (hence `Int.toNat`). -/
def slowSleepCore (parsed : Option Int) : SleepResult :=
  match parsed with
  | none =>
    { badRequest := true, pauseNs := 0, sleptNs := 0,
      logs := [(.error, "failed to parse duration"), (.info, "starting request"),
        (.info, "finishing request")] }
  | some pause =>
    { badRequest := false, pauseNs := pause, sleptNs := pause.toNat,
      logs := [(.info, "starting request"), (.info, "finishing request")] }

/-- The sleep-only `slow` handler variant, with the same default-duration
substitution as the ticking one. -/
def slowSleep (durationVar : String) : SleepResult :=
  let dur := if durationVar = "" then "10s" else durationVar
  let pre : List (LogLevel × String) :=
    if durationVar = "" then [(.info, "using default duration")] else []
  let r := slowSleepCore (parseDuration dur)
  { r with logs := pre ++ r.logs }

/-- An inbound HTTP request as far as the `fail` route can observe it:
the gorilla mux route `/fail` is registered without a method matcher, so
every method and any query string reach the handler. -/
structure HttpRequest where
  method : String
  query : String
deriving DecidableEq, Repr

/-- Observable outcome of the `fail` handler. -/
structure FailResult where
  status : Nat
  body : String
  waitedNs : Nat
deriving DecidableEq, Repr

/-- The `fail` handler: a single `WriteHeader(http.StatusGatewayTimeout)`
and nothing else --- no body bytes and no waiting. -/
def failHandler (_req : HttpRequest) : FailResult :=
  { status := 504, body := "", waitedNs := 0 }

/-- Nanoseconds in `time.Minute`, the shutdown grace interval that `main`
passes to `context.WithTimeout`. -/
def minuteNs : Nat := 60 * second

/-- Model of `http.Server.Shutdown` under a deadline, the contract the
spec states for the consumed collaborator: it waits until the in-flight
handlers have finished or the grace interval elapses, whichever is first,
and returns an error exactly when the grace interval was exceeded. -/
def serverShutdown (handlersDoneAt grace : Nat) : Nat × Bool :=
  (min handlersDoneAt grace, decide (grace < handlersDoneAt))

/-- The shutdown tail of `main`: shut the server down with a one-minute
deadline, log a warning if that returned an error, then log completion
and return (the process exits).  The result is the time spent waiting and
the log events of the tail. -/
def shutdownSequence (handlersDoneAt : Nat) : Nat × List (LogLevel × String) :=
  let r := serverShutdown handlersDoneAt minuteNs
  (r.1,
    (if r.2 then [(.warn, "failed to shutdown server")] else []) ++
      [(.info, "server shutdown complete")])

/-- A minute is sixty ticker intervals. -/
theorem minuteNs_eq : minuteNs = 60 * second := rfl

theorem withOpt_zero (o : Option Nat) : withOpt 0 o = 0 := by
  cases o <;> simp [withOpt]

theorem withOpt_le_self (t : Nat) (o : Option Nat) : withOpt t o ≤ t := by
  cases o <;> simp [withOpt]

theorem withOpt_le_some (t c : Nat) : withOpt t (some c) ≤ c := by
  simp [withOpt]

theorem tickCount_le (tstar : Nat) (tie : Bool) : tickCount tstar tie ≤ tstar / second := by
  simp only [tickCount, second]
  split <;> omega

theorem tick_cond_iff (tstar k : Nat) (tie : Bool) :
    ((k + 1) * second < tstar ∨ ((k + 1) * second = tstar ∧ tie = false)) ↔
      k + 1 ≤ tickCount tstar tie := by
  cases tie <;> by_cases hd : (1000000000 : Nat) ∣ tstar <;>
    simp [tickCount, second, hd] <;> omega

theorem loopRun_zero (ts : Nat → String) (isFl tie : Bool) (failAt : Option Nat)
    (cause : ExitCause) (fuel k : Nat) :
    loopRun ts isFl tie failAt cause 0 fuel k =
      { body := [], flushes := 0, logs := [], exitTime := 0, cause := cause } := by
  cases fuel with
  | zero => rfl
  | succ n =>
    simp only [loopRun]
    split
    · next h => simp [second] at h
    · rfl

theorem loopRun_exit (ts : Nat → String) (isFl tie : Bool) (cause : ExitCause)
    (tstar : Nat) : ∀ fuel k,
    (loopRun ts isFl tie none cause tstar fuel k).exitTime = tstar ∧
      (loopRun ts isFl tie none cause tstar fuel k).cause = cause := by
  intro fuel
  induction fuel with
  | zero => intro k; exact ⟨rfl, rfl⟩
  | succ n ih =>
    intro k
    simp only [loopRun]
    split
    · simp only [reduceCtorEq, if_false]
      exact ih (k + 1)
    · exact ⟨rfl, rfl⟩

theorem loopRun_length (ts : Nat → String) (isFl tie : Bool) (cause : ExitCause)
    (tstar : Nat) : ∀ fuel k, tickCount tstar tie + 1 ≤ fuel + k →
    (loopRun ts isFl tie none cause tstar fuel k).body.length = tickCount tstar tie - k := by
  intro fuel
  induction fuel with
  | zero =>
    intro k h
    simp only [loopRun, List.length_nil]
    omega
  | succ n ih =>
    intro k h
    simp only [loopRun]
    split
    · next hc =>
      rw [tick_cond_iff] at hc
      simp only [reduceCtorEq, if_false, List.length_cons]
      rw [ih (k + 1) (by omega)]
      omega
    · next hc =>
      rw [tick_cond_iff] at hc
      simp only [List.length_nil]
      omega

theorem loopRun_body_form (ts : Nat → String) (isFl tie : Bool) (failAt : Option Nat)
    (cause : ExitCause) (tstar : Nat) : ∀ fuel k l,
    l ∈ (loopRun ts isFl tie failAt cause tstar fuel k).body → ∃ t, l = tickLine (ts t) := by
  intro fuel
  induction fuel with
  | zero => intro k l hl; simp [loopRun] at hl
  | succ n ih =>
    intro k l hl
    simp only [loopRun] at hl
    split at hl
    · split at hl
      · simp at hl
      · simp only [List.mem_cons] at hl
        rcases hl with h | h
        · exact ⟨(k + 1) * second, h⟩
        · exact ih (k + 1) l h
    · simp at hl

theorem loopRun_flushes (ts : Nat → String) (isFl tie : Bool) (failAt : Option Nat)
    (cause : ExitCause) (tstar : Nat) : ∀ fuel k,
    (loopRun ts isFl tie failAt cause tstar fuel k).flushes =
      (if isFl then (loopRun ts isFl tie failAt cause tstar fuel k).body.length else 0) := by
  intro fuel
  induction fuel with
  | zero => cases isFl <;> simp [loopRun]
  | succ n ih =>
    intro k
    simp only [loopRun]
    split
    · split
      · cases isFl <;> simp
      · rw [ih (k + 1)]
        cases isFl <;> simp [Nat.add_comm]
    · cases isFl <;> simp

theorem loopRun_fail (ts : Nat → String) (isFl tie : Bool) (cause : ExitCause)
    (tstar j : Nat) : ∀ fuel k, k < j → j ≤ tickCount tstar tie → j ≤ fuel + k →
    (loopRun ts isFl tie (some j) cause tstar fuel k).cause = ExitCause.writeFailed ∧
      (loopRun ts isFl tie (some j) cause tstar fuel k).exitTime = j * second ∧
      (loopRun ts isFl tie (some j) cause tstar fuel k).body.length = j - 1 - k ∧
      (LogLevel.error, "failed to write tick") ∈
        (loopRun ts isFl tie (some j) cause tstar fuel k).logs := by
  intro fuel
  induction fuel with
  | zero => intro k hk _ hf; omega
  | succ n ih =>
    intro k hk hstop hf
    have hcond : (k + 1) * second < tstar ∨ ((k + 1) * second = tstar ∧ tie = false) := by
      rw [tick_cond_iff]
      omega
    simp only [loopRun, if_pos hcond]
    by_cases hj : j = k + 1
    · subst hj
      simp
    · rw [if_neg (by simp; omega)]
      have hrest := ih (k + 1) (by omega) hstop (by omega)
      refine ⟨hrest.1, hrest.2.1, ?_, ?_⟩
      · simp only [List.length_cons, hrest.2.2.1]
        omega
      · simp only [List.mem_cons, List.mem_append]
        right
        right
        exact hrest.2.2.2

/-- C1: the claim says a malformed duration yields a 400 response and the
handler returns without entering the wait loop.  Evaluated at the failing
input `"banana"`: the 400 header is indeed written, but the handler does
NOT return early --- control falls through into the select wait loop
(`reachedWaitLoop`), which it leaves through the immediately fired
zero-duration timer at time zero with no output; the sleep variant
likewise falls through into a zero-length sleep. -/
theorem slow_malformed_enters_wait_loop :
    (slowTicking (fun _ => "") true "banana" none none none false).badRequest = true ∧
    (slowTicking (fun _ => "") true "banana" none none none false).reachedWaitLoop = true ∧
    (slowTicking (fun _ => "") true "banana" none none none false).body = [] ∧
    (slowTicking (fun _ => "") true "banana" none none none false).exitTime = 0 ∧
    (slowSleep "banana").badRequest = true ∧
    (slowSleep "banana").sleptNs = 0 := by
  decide

/-- C2: with a successfully parsed duration and no write failure, the
ticking handler returns exactly at the earliest of the delay elapsing
(the timer fires at `max pause 0` nanoseconds), the client cancellation
and the process shutdown; in particular a pending client cancellation
bounds the exit time, so a cancellation before the delay elapses ends the
handler at the cancellation instant rather than at the full delay. -/
theorem slow_exits_at_earliest_event (ts : Nat → String) (isFl : Bool) (d : String)
    (pause : Int) (cancelAt shutdownAt : Option Nat) (tieTimer : Bool)
    (hp : parseDuration (if d = "" then "10s" else d) = some pause) :
    (slowTicking ts isFl d cancelAt shutdownAt none tieTimer).exitTime =
      withOpt (withOpt pause.toNat cancelAt) shutdownAt ∧
    (∀ c, cancelAt = some c →
      (slowTicking ts isFl d cancelAt shutdownAt none tieTimer).exitTime ≤ c) := by
  have h1 : (slowTicking ts isFl d cancelAt shutdownAt none tieTimer).exitTime =
      withOpt (withOpt pause.toNat cancelAt) shutdownAt := by
    simp only [slowTicking, slowCore, slowWait, hp]
    exact (loopRun_exit _ _ _ _ _ _ _).1
  refine ⟨h1, fun c hc => ?_⟩
  rw [h1, hc]
  exact le_trans (withOpt_le_self _ _) (withOpt_le_some _ _)

theorem slow_exits_at_earliest_event_witness :
    (slowTicking (fun _ => "") true "5s" (some 2000000005) none none false).exitTime =
      withOpt (withOpt (Int.toNat 5000000000) (some 2000000005)) none ∧
    (∀ c, (some 2000000005 : Option Nat) = some c →
      (slowTicking (fun _ => "") true "5s" (some 2000000005) none none false).exitTime ≤ c) :=
  slow_exits_at_earliest_event (fun _ => "") true "5s" 5000000000 (some 2000000005) none
    false (by decide)

/-- C3 fails as stated on the code: for the whole-second delay `2s` the
second tick and the timer become ready at the same instant, and the
execution in which the select chooses the timer writes only one `tick:`
line instead of floor(2) = 2. -/
theorem slow_two_second_delay_one_tick :
    (slowTicking (fun _ => "") true "2s" none none none true).body.length = 1 ∧
    ¬ (slowTicking (fun _ => "") true "2s" none none none true).body.length = 2 := by
  decide

/-- C3 amended: with no cancellation and no write failure, a parsed delay
of `pause` nanoseconds yields floor(pause / second) tick lines whenever
the delay is not an exact whole number of seconds; for a whole-second
delay the final tick ties with the timer, and the count is the floor or
one less according to which of the two simultaneously ready channels the
select chooses.  A delay under one second yields no tick line. -/
theorem slow_tick_line_count (ts : Nat → String) (isFl : Bool) (d : String)
    (pause : Int) (tieTimer : Bool)
    (hp : parseDuration (if d = "" then "10s" else d) = some pause) :
    ((slowTicking ts isFl d none none none tieTimer).body.length =
      if second ∣ pause.toNat ∧ tieTimer = true then pause.toNat / second - 1
      else pause.toNat / second) ∧
    (pause.toNat < second → (slowTicking ts isFl d none none none tieTimer).body.length = 0) := by
  have h1 : (slowTicking ts isFl d none none none tieTimer).body.length =
      tickCount pause.toNat tieTimer := by
    simp only [slowTicking, slowCore, slowWait, hp, withOpt]
    rw [loopRun_length ts isFl tieTimer _ pause.toNat _ 0
      (by have := tickCount_le pause.toNat tieTimer; omega)]
    omega
  constructor
  · rw [h1]
    rfl
  · intro hlt
    rw [h1]
    simp only [tickCount, second] at hlt ⊢
    split <;> omega

theorem slow_tick_line_count_witness :
    ((slowTicking (fun _ => "") true "2500ms" none none none true).body.length =
      if second ∣ (2500000000 : Int).toNat ∧ (true : Bool) = true
      then (2500000000 : Int).toNat / second - 1
      else (2500000000 : Int).toNat / second) ∧
    ((2500000000 : Int).toNat < second →
      (slowTicking (fun _ => "") true "2500ms" none none none true).body.length = 0) :=
  slow_tick_line_count (fun _ => "") true "2500ms" 2500000000 true (by decide)

/-- C4: an empty (gorilla mux reports an absent path variable as the
empty string) duration variable behaves exactly as the string `"10s"`:
the parsed pause is 10 seconds, and the entire observable outcome of both
handler variants agrees with the `"10s"` run, apart from the one extra
informational log entry announcing the default. -/
theorem slow_empty_duration_defaults (ts : Nat → String) (isFl : Bool)
    (cancelAt shutdownAt failAt : Option Nat) (tieTimer : Bool) :
    parseDuration "10s" = some (10 * 1000000000) ∧
    slowTicking ts isFl "" cancelAt shutdownAt failAt tieTimer =
      { slowTicking ts isFl "10s" cancelAt shutdownAt failAt tieTimer with
        logs := (LogLevel.info, "using default duration") ::
          (slowTicking ts isFl "10s" cancelAt shutdownAt failAt tieTimer).logs } ∧
    slowSleep "" =
      { slowSleep "10s" with
        logs := (LogLevel.info, "using default duration") :: (slowSleep "10s").logs } := by
  refine ⟨by decide, ?_, ?_⟩
  · simp [slowTicking]
  · simp [slowSleep]

/-- C5: the `fail` handler writes the 504 status and nothing else, for
every request: the result is independent of method and query string, the
body is empty and no time is spent waiting. -/
theorem fail_always_504 (req other : HttpRequest) :
    failHandler req = { status := 504, body := "", waitedNs := 0 } ∧
    failHandler req = failHandler other :=
  ⟨rfl, rfl⟩

/-- C6: every element of the response body is the single line produced by
one `Write` call, `tick: <timestamp>\n`, for some ticker timestamp; when
the response writer implements `http.Flusher` each such write is followed
by its own flush, so the flush count equals the line count; and a tick
line holds exactly one newline whenever the rendered timestamp holds
none, so each write carries exactly one line. -/
theorem slow_tick_lines_form_and_flush (ts : Nat → String) (isFl : Bool) (d : String)
    (cancelAt shutdownAt failAt : Option Nat) (tieTimer : Bool) :
    (∀ l ∈ (slowTicking ts isFl d cancelAt shutdownAt failAt tieTimer).body,
      ∃ t, l = tickLine (ts t)) ∧
    ((slowTicking ts isFl d cancelAt shutdownAt failAt tieTimer).flushes =
      if isFl then (slowTicking ts isFl d cancelAt shutdownAt failAt tieTimer).body.length
      else 0) ∧
    (∀ t, (ts t).data.count newline = 0 → (tickLine (ts t)).data.count newline = 1) := by
  refine ⟨?_, ?_, ?_⟩
  · intro l hl
    revert hl
    simp only [slowTicking, slowCore, slowWait]
    cases hq : parseDuration (if d = "" then "10s" else d) with
    | none => exact fun hl => loopRun_body_form _ _ _ _ _ _ _ _ _ hl
    | some p => exact fun hl => loopRun_body_form _ _ _ _ _ _ _ _ _ hl
  · simp only [slowTicking, slowCore, slowWait]
    cases hq : parseDuration (if d = "" then "10s" else d) with
    | none => exact loopRun_flushes _ _ _ _ _ _ _ _
    | some p => exact loopRun_flushes _ _ _ _ _ _ _ _
  · intro t ht
    have hd : (tickLine (ts t)).data = "tick: ".data ++ (ts t).data ++ "\n".data := by
      simp only [tickLine, String.data_append]
    rw [hd, List.count_append, List.count_append, ht]
    decide

theorem slow_tick_lines_form_and_flush_witness :
    ∃ t, "tick: T\n" = tickLine ((fun _ : Nat => "T") t) :=
  (slow_tick_lines_form_and_flush (fun _ => "T") true "1500ms" none none none false).1
    "tick: T\n" (by decide)

/-- C7: when the write of tick `j` fails (a tick that the run actually
attempts), the handler returns from its loop at that very tick: the exit
cause is the failed write, the exit happens at `j` seconds, exactly the
`j - 1` earlier lines are in the body, and the failure is logged at error
level.  The handler is a pure function of its own request inputs ---
invocations share only the read-only shutdown context, so no other
invocation or server-level state is touched. -/
theorem slow_write_failure_stops_handler (ts : Nat → String) (isFl : Bool) (d : String)
    (pause : Int) (cancelAt shutdownAt : Option Nat) (tieTimer : Bool) (j : Nat)
    (hp : parseDuration (if d = "" then "10s" else d) = some pause)
    (hj1 : 1 ≤ j)
    (hj2 : j ≤ tickCount (withOpt (withOpt pause.toNat cancelAt) shutdownAt) tieTimer) :
    (slowTicking ts isFl d cancelAt shutdownAt (some j) tieTimer).cause =
      ExitCause.writeFailed ∧
    (slowTicking ts isFl d cancelAt shutdownAt (some j) tieTimer).exitTime = j * second ∧
    (slowTicking ts isFl d cancelAt shutdownAt (some j) tieTimer).body.length = j - 1 ∧
    (LogLevel.error, "failed to write tick") ∈
      (slowTicking ts isFl d cancelAt shutdownAt (some j) tieTimer).logs := by
  have hfail := loopRun_fail ts isFl tieTimer
    (firstCause pause.toNat cancelAt shutdownAt)
    (withOpt (withOpt pause.toNat cancelAt) shutdownAt) j
    (withOpt (withOpt pause.toNat cancelAt) shutdownAt / second + 1) 0
    (by omega) hj2
    (by have := tickCount_le (withOpt (withOpt pause.toNat cancelAt) shutdownAt) tieTimer
        omega)
  simp only [slowTicking, slowCore, slowWait, hp]
  refine ⟨hfail.1, hfail.2.1, ?_, ?_⟩
  · rw [hfail.2.2.1]
    omega
  · simp only [List.mem_append, List.mem_cons]
    exact Or.inr (Or.inl (Or.inr hfail.2.2.2))

theorem slow_write_failure_stops_handler_witness :
    (slowTicking (fun _ => "") true "3s" none none (some 2) false).cause =
      ExitCause.writeFailed ∧
    (slowTicking (fun _ => "") true "3s" none none (some 2) false).exitTime = 2 * second ∧
    (slowTicking (fun _ => "") true "3s" none none (some 2) false).body.length = 2 - 1 ∧
    (LogLevel.error, "failed to write tick") ∈
      (slowTicking (fun _ => "") true "3s" none none (some 2) false).logs :=
  slow_write_failure_stops_handler (fun _ => "") true "3s" 3000000000 none none false 2
    (by decide) (by decide) (by decide)

/-- C8: the shutdown tail of `main` waits for the in-flight handlers for
at most the one-minute grace interval (`time.Minute` passed to
`context.WithTimeout`); when they need longer, the wait is cut off at the
minute, a warning is logged, and the sequence still runs to completion,
ending with the completion log before the process exits. -/
theorem shutdown_grace_one_minute (t : Nat) :
    (shutdownSequence t).1 = min t minuteNs ∧
    (shutdownSequence t).1 ≤ minuteNs ∧
    (((LogLevel.warn, "failed to shutdown server") ∈ (shutdownSequence t).2) ↔
      minuteNs < t) ∧
    (shutdownSequence t).2.getLast? = some (LogLevel.info, "server shutdown complete") := by
  refine ⟨rfl, min_le_right _ _, ?_, ?_⟩
  · by_cases h : minuteNs < t <;> simp [shutdownSequence, serverShutdown, h]
  · by_cases h : minuteNs < t <;> simp [shutdownSequence, serverShutdown, h]

/-- C9: on the malformed path (a nonempty duration variable that fails to
parse) the `pause` variable keeps the Go zero value, so the fallthrough
execution after the 400 header waits no time at all: the ticking variant
enters its loop but the zero-duration timer is already ready and fires
before the first one-second tick, the body stays empty, the exit is at
time zero (cause: the timer, absent an even earlier cancellation), and
the sleep variant sleeps zero nanoseconds.  So no `tick:` line is ever
written on this path. -/
theorem slow_malformed_no_ticks (ts : Nat → String) (isFl : Bool) (d : String)
    (cancelAt shutdownAt failAt : Option Nat) (tieTimer : Bool)
    (hne : ¬ d = "") (hp : parseDuration d = none) :
    (slowTicking ts isFl d cancelAt shutdownAt failAt tieTimer).badRequest = true ∧
    (slowTicking ts isFl d cancelAt shutdownAt failAt tieTimer).pauseNs = 0 ∧
    (slowTicking ts isFl d cancelAt shutdownAt failAt tieTimer).body = [] ∧
    (slowTicking ts isFl d cancelAt shutdownAt failAt tieTimer).exitTime = 0 ∧
    (slowTicking ts isFl d none none failAt tieTimer).cause = ExitCause.timerFired ∧
    (slowSleep d).badRequest = true ∧ (slowSleep d).sleptNs = 0 := by
  refine ⟨?_, ?_, ?_, ?_, ?_, ?_, ?_⟩ <;>
    simp [slowTicking, slowCore, slowWait, slowSleep, slowSleepCore, hne, hp,
      withOpt_zero, loopRun_zero, firstCause, atTime]

theorem slow_malformed_no_ticks_witness :
    (slowTicking (fun _ => "") true "xyz" (some 5) none (some 1) true).badRequest = true ∧
    (slowTicking (fun _ => "") true "xyz" (some 5) none (some 1) true).pauseNs = 0 ∧
    (slowTicking (fun _ => "") true "xyz" (some 5) none (some 1) true).body = [] ∧
    (slowTicking (fun _ => "") true "xyz" (some 5) none (some 1) true).exitTime = 0 ∧
    (slowTicking (fun _ => "") true "xyz" none none (some 1) true).cause =
      ExitCause.timerFired ∧
    (slowSleep "xyz").badRequest = true ∧ (slowSleep "xyz").sleptNs = 0 :=
  slow_malformed_no_ticks (fun _ => "") true "xyz" (some 5) none (some 1) true
    (by decide) (by decide)

/-- C10: a duration string that parses to a negative value, such as
`"-5s"`, is accepted as valid: no 400 header is written, and because a
timer with a negative duration fires at once (and a negative sleep
returns at once), both variants complete immediately, at time zero and
with an empty body. -/
theorem slow_negative_duration_immediate (ts : Nat → String) (isFl : Bool) (d : String)
    (pause : Int) (cancelAt shutdownAt failAt : Option Nat) (tieTimer : Bool)
    (hp : parseDuration d = some pause) (hneg : pause < 0) :
    (slowTicking ts isFl d cancelAt shutdownAt failAt tieTimer).badRequest = false ∧
    (slowTicking ts isFl d cancelAt shutdownAt failAt tieTimer).body = [] ∧
    (slowTicking ts isFl d cancelAt shutdownAt failAt tieTimer).exitTime = 0 ∧
    (slowSleep d).badRequest = false ∧ (slowSleep d).sleptNs = 0 := by
  have hne : ¬ d = "" := by
    intro h
    rw [h, show parseDuration "" = none from by decide] at hp
    exact Option.noConfusion hp
  have htn : pause.toNat = 0 := Int.toNat_eq_zero.mpr (le_of_lt hneg)
  simp [slowTicking, slowCore, slowWait, slowSleep, slowSleepCore, hne, hp, htn,
    withOpt_zero, loopRun_zero]

theorem slow_negative_duration_immediate_witness :
    (slowTicking (fun _ => "") true "-5s" none none none false).badRequest = false ∧
    (slowTicking (fun _ => "") true "-5s" none none none false).body = [] ∧
    (slowTicking (fun _ => "") true "-5s" none none none false).exitTime = 0 ∧
    (slowSleep "-5s").badRequest = false ∧ (slowSleep "-5s").sleptNs = 0 :=
  slow_negative_duration_immediate (fun _ => "") true "-5s" (-5000000000) none none none
    false (by decide) (by decide)
